import Mathlib

/-
Verification of the university data-warehouse ETL pipeline.

The definitions below are a shallow embedding of the Python source:
 - `src/Ai_analytics.py` : the ETL core (`transform_dimensions`,
   `create_transformed_tables`, `load_transformed_data`,
   `generate_business_facts`, `ensure_sql_types_before_load`).
 - `src/gd.py`           : the dummy-data generator (date-key encoding).

Machine-level conventions: Python numbers are modelled by `Int`/`Nat`/`Rat`;
`random.*` draws are modelled as oracle parameters constrained by the draw's
documented range; `round(x, n)` is modelled as rounding `x * 10^n` to the
nearest integer (tie behaviour is immaterial to every property proved here);
unparsable values are modelled by `Option`.
-/

/- ===================== Date key (src/gd.py, date dimension) ===================== -/

/-- Embedding of `int(d.strftime("%Y%m%d"))` from `src/gd.py`: for a
four-digit year the zero-padded string concatenation equals this arithmetic
encoding. -/
def date_key (y m d : Nat) : Nat := 10000 * y + 100 * m + d

/-- Modelled from the spec: the spec asserts a round-trip inverse
(`decode(encode(d)) == d`) but the repository contains no decoder, so the
decoder is the evident base-100 digit extraction of the YYYYMMDD integer. -/
def decode_date_key (k : Nat) : Nat × Nat × Nat :=
  (k / 10000, k / 100 % 100, k % 100)

/- ===================== Salary adjustment (src/Ai_analytics.py, adjust_salary) ===================== -/

/-- Embedding of the `salary_ranges` dictionary in `transform_dimensions`. -/
def salary_ranges : List (String × (Int × Int)) :=
  [("Professor", (70000, 120000)),
   ("Associate Professor", (60000, 90000)),
   ("Assistant Professor", (50000, 75000)),
   ("Lecturer", (40000, 60000)),
   ("HR Manager", (55000, 80000)),
   ("Finance Officer", (45000, 70000)),
   ("Department Head", (80000, 130000)),
   ("Administrative Assistant", (35000, 50000)),
   ("IT Support", (40000, 65000)),
   ("Research Assistant", (30000, 45000))]

/-- Embedding of `default_range = (30000, 120000)` in `adjust_salary`. -/
def default_range : Int × Int := (30000, 120000)

/-- Embedding of `salary_ranges.get(row.get('job_title', None), default_range)`:
a missing or unrecognized job title falls back to the default band. -/
def band (title : Option String) : Int × Int :=
  match title with
  | some t => (((salary_ranges.find? (fun p => p.1 == t)).map (fun p => p.2)).getD default_range)
  | none => default_range

/-- Embedding of Python `round(x, 2)` over the rationals. -/
def round2 (x : ℚ) : ℚ := ((round (100 * x) : ℤ) : ℚ) / 100

/-- Embedding of Python `round(x, 1)` over the rationals. -/
def round1 (x : ℚ) : ℚ := ((round (10 * x) : ℤ) : ℚ) / 10

/-- A Python float value: a real number or NaN.  A missing CSV cell becomes
NaN in pandas, and `float(nan)` succeeds, so a NaN salary takes the try
branch of `adjust_salary`, not the except branch. -/
inductive PyVal where
  | num : ℚ → PyVal
  | nan : PyVal
deriving DecidableEq

/-- Python `x < a` on a float: False whenever `x` is NaN. -/
def pyLt (x : PyVal) (a : ℚ) : Bool :=
  match x with
  | .num q => decide (q < a)
  | .nan => false

/-- Python `x > a` on a float: False whenever `x` is NaN. -/
def pyGt (x : PyVal) (a : ℚ) : Bool :=
  match x with
  | .num q => decide (a < q)
  | .nan => false

/-- Python `round(x, 2)` on a float: NaN rounds to NaN. -/
def pyRound2 : PyVal → PyVal
  | .num q => .num (round2 q)
  | .nan => .nan

/-- Embedding of `adjust_salary` from `transform_dimensions`.  `salary` is
the outcome of `float(row.get('salary', 0))`: `some (.num q)` when the cell
converts to the number `q`, `some .nan` when the cell is missing (NaN
converts successfully to NaN), and `none` when the conversion raises.  `r1`
is the oracle for the `random.uniform(*default_range)` draw of the except
branch; `r2` is the oracle for the `random.uniform(min_sal, max_sal)` draw
taken when the salary compares outside the job title's band — NaN compares
False on both sides, so it skips that redraw and is returned rounded, i.e.
still NaN. -/
def adjust_salary (r1 r2 : ℚ) (job_title : Option String) (salary : Option PyVal) : PyVal :=
  let b := band job_title
  let sal : PyVal := match salary with
    | some v => v
    | none => .num r1
  if pyLt sal (b.1 : ℚ) || pyGt sal (b.2 : ℚ) then .num (round2 r2) else pyRound2 sal

/- ===================== Student cleaning (src/Ai_analytics.py, transform_dimensions) ===================== -/

/-- A raw student row as read from `dim_student.csv`, restricted to the
fields the cleaning rules touch.  `birth_days` is the day difference
`pd.to_datetime('today') - birth_date`; `none` models an unparsable birth
date (NaT).  `admission_year` is `none` when the CSV value is NA. -/
structure RawStudent where
  student_id : Nat
  admission_year : Option Int
  birth_days : Option Int
deriving DecidableEq

/-- A cleaned student row (the fields the claims are about). -/
structure CleanStudent where
  student_id : Nat
  admission_year : Int
  age : Int
deriving DecidableEq

/-- Embedding of `((today - birth_date).dt.days / 365.25).fillna(0).astype(int)`:
division by 365.25 = 1461/4 followed by truncation toward zero, with an
unparsable birth date contributing age 0. -/
def derived_age (birth_days : Option Int) : Int :=
  match birth_days with
  | some d => Int.tdiv (4 * d) 1461
  | none => 0

/-- Embedding of the admission-year rule in `transform_dimensions`:
`x if pd.notna(x) and 2000 <= int(x) <= current_year else random.randint(2019, current_year)`.
`r` is the oracle for the `random.randint(2019, current_year)` draw. -/
def clean_admission (cy : Int) (r : Int) (x : Option Int) : Int :=
  match x with
  | some v => if 2000 ≤ v ∧ v ≤ cy then v else r
  | none => r

/-- One student row after the admission-year repair and age derivation. -/
def clean_student (cy : Int) (r : Int) (s : RawStudent) : CleanStudent :=
  { student_id := s.student_id,
    admission_year := clean_admission cy r s.admission_year,
    age := derived_age s.birth_days }

/-- Row-wise cleaning pass; `i` indexes the per-row `random.randint` oracle. -/
def clean_students_aux (cy : Int) (rnd : Nat → Int) : Nat → List RawStudent → List CleanStudent
  | _, [] => []
  | i, s :: ss => clean_student cy (rnd i) s :: clean_students_aux cy rnd (i + 1) ss

/-- Embedding of `df_students.drop_duplicates(subset=['student_id'])`: keep
the first row carrying each student id. -/
def dedup_students : List CleanStudent → List Nat → List CleanStudent
  | [], _ => []
  | s :: ss, seen =>
    if s.student_id ∈ seen then dedup_students ss seen
    else s :: dedup_students ss (s.student_id :: seen)

/-- Embedding of the student pipeline of `transform_dimensions`: repair the
admission year and derive the age for every row, keep only rows with
`16 <= age <= 60` (the source filters these rows out, it does not clip), and
drop duplicate student ids keeping the first occurrence. -/
def transform_students (cy : Int) (rnd : Nat → Int) (xs : List RawStudent) : List CleanStudent :=
  let cleaned := clean_students_aux cy rnd 0 xs
  let filtered := cleaned.filter (fun s => decide (16 ≤ s.age) && decide (s.age ≤ 60))
  dedup_students filtered []

/-- Modelled from the spec: the clipping repair the claim attributes to the
age rule ("out-of-range derived ages are mapped to the nearest bound"). -/
def spec_clip_age (a : Int) : Int := max 16 (min 60 a)

/- ===================== Loader second repair pass (src/Ai_analytics.py, load_transformed_data) ===================== -/

/-- An employee row at load time, restricted to the fields the Loader's
referential-integrity pass touches. -/
structure EmployeeRow where
  employee_id : Nat
  department_id : Nat
deriving DecidableEq

/-- Row-wise repair: an invalid department reference is replaced by the
department id the `random.choice(list(valid_dept_ids))` oracle selects;
`pick i` is the oracle draw for row `i`, reduced modulo the candidate count. -/
def repair_employee_depts (deptIds : List Nat) (pick : Nat → Nat) :
    Nat → List EmployeeRow → List EmployeeRow
  | _, [] => []
  | i, e :: es =>
    (if e.department_id ∈ deptIds then e
     else { e with department_id := deptIds.getD (pick i % deptIds.length) 0 })
      :: repair_employee_depts deptIds pick (i + 1) es

/-- Embedding of the employee section of `load_transformed_data`: compute the
set of employee department ids not present among the persisted departments;
when that set is nonempty, report a warning (the `Bool` component) and apply
the row-wise random repair before the write. -/
def load_employees (deptIds : List Nat) (pick : Nat → Nat) (emps : List EmployeeRow) :
    List EmployeeRow × Bool :=
  let invalid := (emps.map (fun e => e.department_id)).filter (fun d => decide (d ∉ deptIds))
  if invalid = [] then (emps, false)
  else (repair_employee_depts deptIds pick 0 emps, true)

/- ===================== Fact synthesis (src/Ai_analytics.py, generate_business_facts) ===================== -/

/-- Embedding of the academic grade formula: a Gaussian base draw shifted by
course level (`Advanced` -5, `Introductory` +5) and by student age (+3 when
over 25), then clipped into [0, 100] via `max(0, min(100, base_grade))`. -/
def academic_grade (base : ℚ) (level : String) (age : Int) : ℚ :=
  let g1 := if level = "Advanced" then base - 5
            else if level = "Introductory" then base + 5 else base
  let g2 := if 25 < age then g1 + 3 else g1
  max 0 (min 100 g2)

/-- Embedding of `max(60, min(100, grade + random.gauss(0, 8)))`. -/
def academic_attendance (grade noise : ℚ) : ℚ := max 60 (min 100 (grade + noise))

/-- Embedding of the HR performance formula: a Gaussian base draw, +0.3 for
tenure over five years, +0.2 when `'Professor'` occurs in the job title,
clipped into [1, 5] via `max(1.0, min(5.0, base_performance))`.
`is_professor` embeds the Python substring test `'Professor' in str(job_title)`. -/
def hr_performance (base : ℚ) (tenure : ℚ) ( is_professor : Bool) : ℚ :=
  let p1 := if 5 < tenure then base + 3 / 10 else base
  let p2 := if is_professor then p1 + 2 / 10 else p1
  max 1 (min 5 p2)

/-- A synthesized academic fact row. -/
structure AcademicFact where
  date_key : Nat
  student_id : Nat
  course_id : Nat
  employee_id : Nat
  grade : ℚ
  attendance_percent : ℚ
  fee_paid : ℚ
deriving DecidableEq

/-- Embedding of `df_students['student_id'].sample(5000, replace=True)`:
5000 draws with replacement from the persisted student ids, the i-th draw
selected by the oracle `draw i` (reduced modulo the population size). -/
def sample_ids (students : List Nat) (draw : Nat → Nat) : List Nat :=
  (List.range 5000).map (fun i => students.getD (draw i % students.length) 0)

/-- Embedding of pandas `.unique()`: de-duplicate keeping first occurrences. -/
def unique_first : List Nat → List Nat → List Nat
  | [], _ => []
  | x :: xs, seen =>
    if x ∈ seen then unique_first xs seen else x :: unique_first xs (x :: seen)

/-- De-duplicated sample, as `.sample(5000, replace=True).unique()` yields. -/
def pandas_unique (l : List Nat) : List Nat := unique_first l []

/-- Per-student oracles for the academic generation loop: the sampled course
(its id, level and credit hours), the sampled instructor and date, the
Gaussian grade and attendance draws, and the 20% discount event. -/
structure AcademicOracle where
  gradeBase : Nat → ℚ
  noise : Nat → ℚ
  course_level : Nat → String
  credit_hours : Nat → ℚ
  course_id : Nat → Nat
  instructor_id : Nat → Nat
  dateKey : Nat → Nat
  discount : Nat → Bool

/-- Embedding of the academic-fact loop of `generate_business_facts`: one
record per distinct sampled student id, with grade/attendance clipped then
rounded to one decimal and the fee computed from credit hours with an
optional 20% discount. `ageOf` looks a student's persisted age up. -/
def generate_academic_facts (students : List Nat) (draw : Nat → Nat)
    (o : AcademicOracle) (ageOf : Nat → Int) : List AcademicFact :=
  (pandas_unique (sample_ids students draw)).map (fun sid =>
    let grade := academic_grade (o.gradeBase sid) (o.course_level sid) (ageOf sid)
    { date_key := o.dateKey sid,
      student_id := sid,
      course_id := o.course_id sid,
      employee_id := o.instructor_id sid,
      grade := round1 grade,
      attendance_percent := round1 (academic_attendance grade (o.noise sid)),
      fee_paid := round2 (o.credit_hours sid * 250 * (if o.discount sid then 8 / 10 else 1)) })

/-- A persisted employee as read back for HR fact generation. -/
structure EmpRec where
  employee_id : Nat
  department_id : Nat
  salary : ℚ
  tenure_years : ℚ
  is_professor : Bool

/-- A synthesized HR fact row. -/
structure HRFact where
  employee_id : Nat
  department_id : Nat
  date_key : Nat
  salary_amount : ℚ
  bonus_amount : ℚ
  overtime_hours : ℚ
  leave_days_taken : Nat
  performance_rating : ℚ

/-- Embedding of the HR-fact loop of `generate_business_facts`: for each
employee, one row per selected quarterly date (the sampled dates per employee
are the oracle `datesFor`), with the clipped performance rating rounded to
one decimal and bonus = salary * performance / 20.  `perfBase`, `ot` and
`leave` are the per-(employee, date) random draw oracles. -/
def generate_hr_facts (emps : List EmpRec) (datesFor : Nat → List Nat)
    (perfBase : Nat → Nat → ℚ) (ot : Nat → Nat → ℚ) (leave : Nat → Nat → Nat) : List HRFact :=
  emps.flatMap (fun e =>
    (datesFor e.employee_id).map (fun dk =>
      let performance := hr_performance (perfBase e.employee_id dk) e.tenure_years e.is_professor
      { employee_id := e.employee_id,
        department_id := e.department_id,
        date_key := dk,
        salary_amount := e.salary,
        bonus_amount := round2 (e.salary * (performance / 20)),
        overtime_hours := ot e.employee_id dk,
        leave_days_taken := leave e.employee_id dk,
        performance_rating := round1 performance }))

/- ===================== Schema manager (src/Ai_analytics.py, create_transformed_tables) ===================== -/

/-- A destination table: column (name, SQL type) pairs, foreign keys
(column, referenced table, referenced column), and the stored rows. -/
structure Table where
  cols : List (String × String)
  fks : List (String × String × String)
  rows : List (List String)
deriving DecidableEq

/-- The destination schema state: which table (if any) each name holds. -/
def Schema : Type := String → Option Table

/-- Embedding of `DROP TABLE IF EXISTS a, b, c;`. -/
def drop_tables (names : List String) (s : Schema) : Schema :=
  fun n => if n ∈ names then none else s n

/-- Embedding of `CREATE TABLE name (...);` — a freshly created table is
empty. -/
def create_table (name : String) (t : Table) (s : Schema) : Schema :=
  fun n => if n = name then some t else s n

/-- The `dim_date` table of the CREATE statement. -/
def tab_dim_date : Table :=
  { cols := [("date_key", "INT PRIMARY KEY"), ("date", "DATE"), ("year", "INT"),
             ("quarter", "INT"), ("month", "INT"), ("week", "INT"), ("day", "INT"),
             ("weekday", "VARCHAR(10)"), ("is_weekend", "BOOLEAN"), ("semester", "VARCHAR(20)")],
    fks := [], rows := [] }

/-- The `dim_student` table of the CREATE statement. -/
def tab_dim_student : Table :=
  { cols := [("student_id", "INT PRIMARY KEY"), ("first_name", "VARCHAR(100)"),
             ("last_name", "VARCHAR(100)"), ("gender", "VARCHAR(10)"), ("birth_date", "DATE"),
             ("admission_year", "INT"), ("program", "VARCHAR(100)"), ("city", "VARCHAR(100)"),
             ("country", "VARCHAR(100)"), ("created_at", "DATE"), ("age", "INT")],
    fks := [], rows := [] }

/-- The `dim_course` table of the CREATE statement. -/
def tab_dim_course : Table :=
  { cols := [("course_id", "INT PRIMARY KEY"), ("course_code", "VARCHAR(20)"),
             ("course_name", "VARCHAR(200)"), ("department", "VARCHAR(100)"),
             ("credit_hours", "INT"), ("course_level", "VARCHAR(20)")],
    fks := [], rows := [] }

/-- The `dim_department` table of the CREATE statement. -/
def tab_dim_department : Table :=
  { cols := [("department_id", "INT PRIMARY KEY"), ("department_name", "VARCHAR(100)"),
             ("manager_id", "INT"), ("budget", "DECIMAL(15,2)"), ("location", "VARCHAR(100)")],
    fks := [], rows := [] }

/-- The `dim_employee` table of the CREATE statement, including its foreign
key to `dim_department`. -/
def tab_dim_employee : Table :=
  { cols := [("employee_id", "INT PRIMARY KEY"), ("first_name", "VARCHAR(100)"),
             ("last_name", "VARCHAR(100)"), ("email", "VARCHAR(150)"), ("phone", "VARCHAR(20)"),
             ("hire_date", "DATE"), ("job_title", "VARCHAR(100)"), ("salary", "DECIMAL(10,2)"),
             ("department_id", "INT"), ("manager_id", "INT"), ("employment_type", "VARCHAR(50)"),
             ("benefits_eligible", "BOOLEAN"), ("tenure_years", "DECIMAL(4,1)")],
    fks := [("department_id", "dim_department", "department_id")], rows := [] }

/-- The `dim_account` table of the CREATE statement. -/
def tab_dim_account : Table :=
  { cols := [("account_id", "INT PRIMARY KEY"), ("account_code", "VARCHAR(20)"),
             ("account_name", "VARCHAR(100)"), ("account_type", "VARCHAR(50)"),
             ("category", "VARCHAR(50)")],
    fks := [], rows := [] }

/-- The `dim_vendor` table of the CREATE statement. -/
def tab_dim_vendor : Table :=
  { cols := [("vendor_id", "INT PRIMARY KEY"), ("vendor_name", "VARCHAR(100)"),
             ("vendor_type", "VARCHAR(50)"), ("contact_person", "VARCHAR(100)"),
             ("phone", "VARCHAR(20)"), ("email", "VARCHAR(150)")],
    fks := [], rows := [] }

/-- The `fact_academics` table of the CREATE statement. -/
def tab_fact_academics : Table :=
  { cols := [("record_id", "BIGINT AUTO_INCREMENT PRIMARY KEY"), ("date_key", "INT"),
             ("student_id", "INT"), ("course_id", "INT"), ("employee_id", "INT"),
             ("grade", "DECIMAL(5,2)"), ("attendance_percent", "DECIMAL(5,2)"),
             ("fee_paid", "DECIMAL(10,2)"), ("created_ts", "TIMESTAMP DEFAULT CURRENT_TIMESTAMP")],
    fks := [("date_key", "dim_date", "date_key"), ("student_id", "dim_student", "student_id"),
            ("course_id", "dim_course", "course_id"), ("employee_id", "dim_employee", "employee_id")],
    rows := [] }

/-- The `fact_hr_metrics` table of the CREATE statement. -/
def tab_fact_hr_metrics : Table :=
  { cols := [("record_id", "BIGINT AUTO_INCREMENT PRIMARY KEY"), ("employee_id", "INT"),
             ("department_id", "INT"), ("date_key", "INT"), ("salary_amount", "DECIMAL(10,2)"),
             ("bonus_amount", "DECIMAL(10,2)"), ("overtime_hours", "DECIMAL(5,2)"),
             ("leave_days_taken", "INT"), ("performance_rating", "DECIMAL(3,2)")],
    fks := [("employee_id", "dim_employee", "employee_id"),
            ("department_id", "dim_department", "department_id"),
            ("date_key", "dim_date", "date_key")],
    rows := [] }

/-- The `fact_finance` table of the CREATE statement. -/
def tab_fact_finance : Table :=
  { cols := [("record_id", "BIGINT AUTO_INCREMENT PRIMARY KEY"), ("date_key", "INT"),
             ("account_id", "INT"), ("department_id", "INT"), ("vendor_id", "INT"),
             ("transaction_type", "ENUM Revenue Expense"), ("amount", "DECIMAL(15,2)"),
             ("description", "VARCHAR(200)"), ("reference_number", "VARCHAR(50)")],
    fks := [("date_key", "dim_date", "date_key"), ("account_id", "dim_account", "account_id"),
            ("department_id", "dim_department", "department_id"),
            ("vendor_id", "dim_vendor", "vendor_id")],
    rows := [] }

/-- The ten table names the rebuild drops and recreates. -/
def all_table_names : List String :=
  ["dim_date", "dim_student", "dim_course", "dim_department", "dim_employee",
   "dim_account", "dim_vendor", "fact_academics", "fact_hr_metrics", "fact_finance"]

/-- Embedding of `create_transformed_tables`: drop the three fact tables,
then the seven dimension tables, then create the seven dimension tables and
the three fact tables in the source's statement order. -/
def create_transformed_tables (s : Schema) : Schema :=
  create_table "fact_finance" tab_fact_finance
    (create_table "fact_hr_metrics" tab_fact_hr_metrics
      (create_table "fact_academics" tab_fact_academics
        (create_table "dim_vendor" tab_dim_vendor
          (create_table "dim_account" tab_dim_account
            (create_table "dim_employee" tab_dim_employee
              (create_table "dim_department" tab_dim_department
                (create_table "dim_course" tab_dim_course
                  (create_table "dim_student" tab_dim_student
                    (create_table "dim_date" tab_dim_date
                      (drop_tables ["dim_student", "dim_course", "dim_employee", "dim_department",
                                    "dim_account", "dim_vendor", "dim_date"]
                        (drop_tables ["fact_academics", "fact_hr_metrics", "fact_finance"] s)))))))))))

/- ===================== Date-column coercion (src/Ai_analytics.py, ensure_sql_types_before_load) ===================== -/

/-- A dataframe cell: string, calendar date (day number), datetime (day
number and time-of-day), numeric, or null (NaN/NaT). -/
inductive CellVal where
  | str : String → CellVal
  | date : Nat → CellVal
  | datetime : Nat → Nat → CellVal
  | num : ℚ → CellVal
  | null : CellVal
deriving DecidableEq

/-- The column-name test of `ensure_sql_types_before_load`:
`col == 'date' or col.endswith('_date') or col.endswith('_at')`. -/
def is_date_col (c : String) : Bool :=
  c == "date" || String.endsWith c "_date" || String.endsWith c "_at"

/-- Embedding of `pd.to_datetime(x, errors='coerce').dt.date` on one cell:
dates stay, datetimes lose their time-of-day, strings and numbers go through
the parsing oracles (`none` = unparsable, becoming null), nulls stay null. -/
def to_pydate (parse : String → Option Nat) (numdate : ℚ → Option Nat) : CellVal → CellVal
  | .str s => match parse s with
    | some d => .date d
    | none => .null
  | .date d => .date d
  | .datetime d _ => .date d
  | .num q => match numdate q with
    | some d => .date d
    | none => .null
  | .null => .null

/-- Embedding of `ensure_sql_types_before_load`: the dataframe is a list of
named columns; every column whose name passes `is_date_col` is coerced
cell-wise by `to_pydate`, every other column is kept as is.  The Python
function works on `df.copy()`; the embedding is pure, so the argument is
never mutated. -/
def ensure_sql_types_before_load (parse : String → Option Nat) (numdate : ℚ → Option Nat)
    (df : List (String × List CellVal)) : List (String × List CellVal) :=
  df.map (fun col =>
    if is_date_col col.1 then (col.1, col.2.map (to_pydate parse numdate)) else col)

/- ===================== Generic rounding bounds ===================== -/

lemma round_mem_Icc (a b : ℤ) (x : ℚ) (h1 : (a : ℚ) ≤ x) (h2 : x ≤ (b : ℚ)) :
    a ≤ round x ∧ round x ≤ b := by
  rw [round_eq]
  refine ⟨Int.le_floor.mpr (by linarith), ?_⟩
  have h : ⌊x + 1 / 2⌋ < b + 1 := Int.floor_lt.mpr (by push_cast; linarith)
  omega

lemma round2_mem_Icc (a b : ℤ) (x : ℚ) (h1 : (a : ℚ) ≤ x) (h2 : x ≤ (b : ℚ)) :
    (a : ℚ) ≤ round2 x ∧ round2 x ≤ (b : ℚ) := by
  have h := round_mem_Icc (100 * a) (100 * b) (100 * x) (by push_cast; linarith)
    (by push_cast; linarith)
  unfold round2
  constructor
  · have hcast : ((100 * a : ℤ) : ℚ) ≤ ((round (100 * x) : ℤ) : ℚ) := by exact_mod_cast h.1
    push_cast at hcast
    rw [le_div_iff₀ (by norm_num : (0:ℚ) < 100)]
    linarith
  · have hcast : ((round (100 * x) : ℤ) : ℚ) ≤ ((100 * b : ℤ) : ℚ) := by exact_mod_cast h.2
    push_cast at hcast
    rw [div_le_iff₀ (by norm_num : (0:ℚ) < 100)]
    linarith

lemma round1_mem_Icc (a b : ℤ) (x : ℚ) (h1 : (a : ℚ) ≤ x) (h2 : x ≤ (b : ℚ)) :
    (a : ℚ) ≤ round1 x ∧ round1 x ≤ (b : ℚ) := by
  have h := round_mem_Icc (10 * a) (10 * b) (10 * x) (by push_cast; linarith)
    (by push_cast; linarith)
  unfold round1
  constructor
  · have hcast : ((10 * a : ℤ) : ℚ) ≤ ((round (10 * x) : ℤ) : ℚ) := by exact_mod_cast h.1
    push_cast at hcast
    rw [le_div_iff₀ (by norm_num : (0:ℚ) < 10)]
    linarith
  · have hcast : ((round (10 * x) : ℤ) : ℚ) ≤ ((10 * b : ℤ) : ℚ) := by exact_mod_cast h.2
    push_cast at hcast
    rw [div_le_iff₀ (by norm_num : (0:ℚ) < 10)]
    linarith

/-- Shared helper: whenever the raw salary is not NaN, `adjust_salary`
returns a number inside the job title's band, provided the in-band random
redraw oracle respects its documented range. -/
lemma adjust_salary_some_num_mem (r1 r2 v : ℚ) (title : Option String)
    (h1 : ((band title).1 : ℚ) ≤ r2) (h2 : r2 ≤ ((band title).2 : ℚ)) :
    ∃ q : ℚ, adjust_salary r1 r2 title (some (PyVal.num v)) = PyVal.num q ∧
      ((band title).1 : ℚ) ≤ q ∧ q ≤ ((band title).2 : ℚ) := by
  simp only [adjust_salary]
  by_cases hc : v < ((band title).1 : ℚ) ∨ ((band title).2 : ℚ) < v
  · have hcond : (pyLt (PyVal.num v) ((band title).1 : ℚ) ||
        pyGt (PyVal.num v) ((band title).2 : ℚ)) = true := by
      simp only [pyLt, pyGt, Bool.or_eq_true, decide_eq_true_eq]
      exact hc
    rw [if_pos hcond]
    exact ⟨round2 r2, rfl, round2_mem_Icc (band title).1 (band title).2 r2 h1 h2⟩
  · push_neg at hc
    have hcond : (pyLt (PyVal.num v) ((band title).1 : ℚ) ||
        pyGt (PyVal.num v) ((band title).2 : ℚ)) = false := by
      simp only [pyLt, pyGt, Bool.or_eq_false_iff, decide_eq_false_iff_not]
      exact ⟨not_lt.mpr hc.1, not_lt.mpr hc.2⟩
    rw [if_neg (by rw [hcond]; exact Bool.false_ne_true)]
    exact ⟨round2 v, rfl, round2_mem_Icc (band title).1 (band title).2 v hc.1 hc.2⟩

lemma adjust_salary_num_mem_band (r1 r2 : ℚ) (title : Option String) (salary : Option PyVal)
    (hnan : salary ≠ some PyVal.nan)
    (h1 : ((band title).1 : ℚ) ≤ r2) (h2 : r2 ≤ ((band title).2 : ℚ)) :
    ∃ q : ℚ, adjust_salary r1 r2 title salary = PyVal.num q ∧
      ((band title).1 : ℚ) ≤ q ∧ q ≤ ((band title).2 : ℚ) := by
  cases salary with
  | none => exact adjust_salary_some_num_mem r1 r2 r1 title h1 h2
  | some u =>
    cases u with
    | num v => exact adjust_salary_some_num_mem r1 r2 v title h1 h2
    | nan => exact absurd rfl hnan

/-- Shared helper: a NaN salary survives `adjust_salary` as NaN — the except
branch is not taken and both band comparisons are False. -/
lemma adjust_salary_nan (r1 r2 : ℚ) (title : Option String) :
    adjust_salary r1 r2 title (some PyVal.nan) = PyVal.nan := rfl

/- ===================== Claim theorems ===================== -/

/-- Claim C7: the date-key encoding (calendar date to 8-digit integer
YYYYMMDD) is injective on valid dates and has an inverse: decoding the
encoding of any date of the generated range yields the date again. -/
theorem c7_date_key_roundtrip (y m d : Nat) (hm1 : 1 ≤ m) (hm2 : m ≤ 12)
    (hd1 : 1 ≤ d) (hd2 : d ≤ 31) :
    decode_date_key (date_key y m d) = (y, m, d) ∧
    ∀ y2 m2 d2, 1 ≤ m2 → m2 ≤ 12 → 1 ≤ d2 → d2 ≤ 31 →
      date_key y m d = date_key y2 m2 d2 → y = y2 ∧ m = m2 ∧ d = d2 := by
  constructor
  · simp only [date_key, decode_date_key, Prod.mk.injEq]
    omega
  · intro y2 m2 d2 g1 g2 g3 g4 heq
    simp only [date_key] at heq
    omega

theorem c7_date_key_roundtrip_witness :
    (1 ≤ 7 ∧ 7 ≤ 12 ∧ 1 ≤ 15 ∧ 15 ≤ 31) ∧
    (decode_date_key (date_key 2023 7 15) = (2023, 7, 15) ∧
     ∀ y2 m2 d2, 1 ≤ m2 → m2 ≤ 12 → 1 ≤ d2 → d2 ≤ 31 →
       date_key 2023 7 15 = date_key y2 m2 d2 → 2023 = y2 ∧ 7 = m2 ∧ 15 = d2) :=
  ⟨by decide,
   c7_date_key_roundtrip 2023 7 15 (by decide) (by decide) (by decide) (by decide)⟩

/-- Claim C3 (counterexample): an employee row whose salary cell is missing
(NaN) refutes the universal in-band claim: `float(nan)` succeeds, so the
except-branch repair never fires; both band comparisons on NaN are False,
so the in-band redraw never fires either; and `round(nan, 2)` is returned —
the cleaned salary is NaN, which is not a number inside any band. -/
theorem c3_counterexample :
    adjust_salary 0 100000 (some "Professor") (some PyVal.nan) = PyVal.nan ∧
    band (some "Professor") = (70000, 120000) ∧
    ∀ q : ℚ, PyVal.nan ≠ PyVal.num q :=
  ⟨rfl, by decide, fun q h => PyVal.noConfusion h⟩

/-- Claim C3 (amended): for every cleaned employee row whose raw salary is
not NaN — the cell either converts to a number or raises in `float` — the
cleaned salary is a number lying inside the band for the row's job title
(the default band when the title is missing or unrecognized); a NaN
(missing) salary is instead passed through unrepaired as NaN. -/
theorem c3_amended_salary_in_band (r1 r2 : ℚ) (title : Option String) (salary : Option PyVal)
    (hnan : salary ≠ some PyVal.nan)
    (h1 : ((band title).1 : ℚ) ≤ r2) (h2 : r2 ≤ ((band title).2 : ℚ)) :
    (∃ q : ℚ, adjust_salary r1 r2 title salary = PyVal.num q ∧
      ((band title).1 : ℚ) ≤ q ∧ q ≤ ((band title).2 : ℚ)) ∧
    adjust_salary r1 r2 title (some PyVal.nan) = PyVal.nan :=
  ⟨adjust_salary_num_mem_band r1 r2 title salary hnan h1 h2,
   adjust_salary_nan r1 r2 title⟩

theorem c3_amended_salary_in_band_witness :
    ((some (PyVal.num 1) ≠ some PyVal.nan) ∧
      ((band (some "Lecturer")).1 : ℚ) ≤ 50000 ∧
      (50000 : ℚ) ≤ ((band (some "Lecturer")).2 : ℚ)) ∧
    ((∃ q : ℚ, adjust_salary 0 50000 (some "Lecturer") (some (PyVal.num 1)) = PyVal.num q ∧
      ((band (some "Lecturer")).1 : ℚ) ≤ q ∧ q ≤ ((band (some "Lecturer")).2 : ℚ)) ∧
    adjust_salary 0 50000 (some "Lecturer") (some PyVal.nan) = PyVal.nan) :=
  ⟨⟨by decide, by decide, by decide⟩,
   c3_amended_salary_in_band 0 50000 (some "Lecturer") (some (PyVal.num 1))
     (by decide) (by decide) (by decide)⟩

/-- Claim C6 (counterexample): an employee with the recognized job title
`Department Head` and an unparsable salary can end up with salary 125000,
which lies outside the default band (30000, 120000): the uniform draw from
the default band (here 50000) is below the title band's minimum 80000, so it
is redrawn inside the title band (80000, 130000), whose top exceeds the
default band.  Hence the final value is not always inside the default band. -/
lemma round2_int (n : ℤ) : round2 ((n : ℚ)) = (n : ℚ) := by
  unfold round2
  rw [show (100 : ℚ) * (n : ℚ) = ((100 * n : ℤ) : ℚ) by push_cast; ring, round_intCast]
  push_cast
  ring

theorem c6_counterexample :
    adjust_salary 50000 125000 (some "Department Head") none = PyVal.num 125000 ∧
    band (some "Department Head") = (80000, 130000) ∧
    default_range = (30000, 120000) ∧
    ((30000 : ℚ) ≤ 50000 ∧ (50000 : ℚ) ≤ 120000) ∧
    ((80000 : ℚ) ≤ 125000 ∧ (125000 : ℚ) ≤ 130000) ∧
    ¬((125000 : ℚ) ≤ 120000) := by
  have hb : band (some "Department Head") = (80000, 130000) := by decide
  have h125 : round2 (125000 : ℚ) = 125000 := by
    have h := round2_int 125000
    push_cast at h
    exact h
  refine ⟨?_, hb, by decide, by norm_num, by norm_num, by norm_num⟩
  simp only [adjust_salary, hb]
  norm_num [pyLt, pyGt]
  exact h125

/-- Claim C6 (amended): when the salary is unparsable, `adjust_salary` first
substitutes the default-band uniform draw `r1`, then subjects that draw to
the ordinary job-title band check — redrawing it inside the title's band when
it falls outside — so the final value always lies in the title's band (which
is the default band only when the title is unrecognized). -/
theorem c6_amended_unparsable_salary (r1 r2 : ℚ) (title : Option String)
    (h1 : ((band title).1 : ℚ) ≤ r2) (h2 : r2 ≤ ((band title).2 : ℚ)) :
    adjust_salary r1 r2 title none =
      PyVal.num (if r1 < ((band title).1 : ℚ) ∨ ((band title).2 : ℚ) < r1
                 then round2 r2 else round2 r1) ∧
    ∃ q : ℚ, adjust_salary r1 r2 title none = PyVal.num q ∧
      ((band title).1 : ℚ) ≤ q ∧ q ≤ ((band title).2 : ℚ) := by
  constructor
  · simp only [adjust_salary]
    by_cases hc : r1 < ((band title).1 : ℚ) ∨ ((band title).2 : ℚ) < r1
    · have hcond : (pyLt (PyVal.num r1) ((band title).1 : ℚ) ||
          pyGt (PyVal.num r1) ((band title).2 : ℚ)) = true := by
        simp only [pyLt, pyGt, Bool.or_eq_true, decide_eq_true_eq]
        exact hc
      rw [if_pos hcond, if_pos hc]
    · have hcond : (pyLt (PyVal.num r1) ((band title).1 : ℚ) ||
          pyGt (PyVal.num r1) ((band title).2 : ℚ)) = false := by
        push_neg at hc
        simp only [pyLt, pyGt, Bool.or_eq_false_iff, decide_eq_false_iff_not]
        exact ⟨not_lt.mpr hc.1, not_lt.mpr hc.2⟩
      rw [if_neg (by rw [hcond]; exact Bool.false_ne_true), if_neg hc]
      rfl
  · exact adjust_salary_num_mem_band r1 r2 title none (by simp) h1 h2

theorem c6_amended_unparsable_salary_witness :
    (((band (some "Department Head")).1 : ℚ) ≤ 100000 ∧
      (100000 : ℚ) ≤ ((band (some "Department Head")).2 : ℚ)) ∧
    (adjust_salary 50000 100000 (some "Department Head") none =
      PyVal.num (if (50000 : ℚ) < ((band (some "Department Head")).1 : ℚ) ∨
          ((band (some "Department Head")).2 : ℚ) < (50000 : ℚ)
       then round2 100000 else round2 50000) ∧
    ∃ q : ℚ, adjust_salary 50000 100000 (some "Department Head") none = PyVal.num q ∧
      ((band (some "Department Head")).1 : ℚ) ≤ q ∧
      q ≤ ((band (some "Department Head")).2 : ℚ)) :=
  ⟨⟨by decide, by decide⟩,
   c6_amended_unparsable_salary 50000 100000 (some "Department Head") (by decide) (by decide)⟩

lemma mem_dedup_students (l : List CleanStudent) (seen : List Nat) (s : CleanStudent)
    (h : s ∈ dedup_students l seen) : s ∈ l := by
  induction l generalizing seen with
  | nil => simp [dedup_students] at h
  | cons a t ih =>
    simp only [dedup_students] at h
    by_cases hc : a.student_id ∈ seen
    · rw [if_pos hc] at h
      exact List.mem_cons_of_mem _ (ih _ h)
    · rw [if_neg hc] at h
      rcases List.mem_cons.mp h with h1 | h1
      · exact h1 ▸ List.mem_cons_self _ _
      · exact List.mem_cons_of_mem _ (ih _ h1)

lemma mem_clean_students_aux (cy : Int) (rnd : Nat → Int) (l : List RawStudent) (i : Nat)
    (s : CleanStudent) (h : s ∈ clean_students_aux cy rnd i l) :
    ∃ j, ∃ raw ∈ l, s = clean_student cy (rnd j) raw := by
  induction l generalizing i with
  | nil => simp [clean_students_aux] at h
  | cons a t ih =>
    rcases List.mem_cons.mp h with h1 | h1
    · exact ⟨i, a, List.mem_cons_self _ _, h1⟩
    · obtain ⟨j, raw, hraw, he⟩ := ih (i + 1) h1
      exact ⟨j, raw, List.mem_cons_of_mem _ hraw, he⟩

/-- Claim C2: every student row in the cleaned output has its derived age in
[16, 60] and its admission year in [2000, current_year], given that the
`random.randint(2019, current_year)` oracle respects its range. -/
theorem c2_student_ranges (cy : Int) (rnd : Nat → Int) (xs : List RawStudent)
    (hr : ∀ i, 2019 ≤ rnd i ∧ rnd i ≤ cy) :
    ∀ s ∈ transform_students cy rnd xs,
      16 ≤ s.age ∧ s.age ≤ 60 ∧ 2000 ≤ s.admission_year ∧ s.admission_year ≤ cy := by
  intro s hs
  unfold transform_students at hs
  have hfil := mem_dedup_students _ _ _ hs
  have hmem := List.mem_filter.mp hfil
  have hage : 16 ≤ s.age ∧ s.age ≤ 60 := by
    have hb := hmem.2
    simp only [Bool.and_eq_true, decide_eq_true_eq] at hb
    exact hb
  obtain ⟨j, raw, hraw, he⟩ := mem_clean_students_aux cy rnd _ 0 s hmem.1
  have hadm : 2000 ≤ s.admission_year ∧ s.admission_year ≤ cy := by
    rw [he]
    simp only [clean_student]
    cases hx : raw.admission_year with
    | none =>
      simp only [clean_admission]
      exact ⟨le_trans (by norm_num) (hr j).1, (hr j).2⟩
    | some v =>
      simp only [clean_admission]
      by_cases hv : 2000 ≤ v ∧ v ≤ cy
      · rw [if_pos hv]
        exact hv
      · rw [if_neg hv]
        exact ⟨le_trans (by norm_num) (hr j).1, (hr j).2⟩
  exact ⟨hage.1, hage.2, hadm.1, hadm.2⟩

theorem c2_student_ranges_witness :
    (∀ _i : Nat, 2019 ≤ (2020 : Int) ∧ (2020 : Int) ≤ 2025) ∧
    (16 ≤ (⟨1, 2020, 21⟩ : CleanStudent).age ∧ (⟨1, 2020, 21⟩ : CleanStudent).age ≤ 60 ∧
      2000 ≤ (⟨1, 2020, 21⟩ : CleanStudent).admission_year ∧
      (⟨1, 2020, 21⟩ : CleanStudent).admission_year ≤ 2025) :=
  ⟨fun _ => by norm_num,
   c2_student_ranges 2025 (fun _ => 2020) [⟨1, some 1995, some 8000⟩]
     (fun _ => by norm_num) ⟨1, 2020, 21⟩ (by decide)⟩

/-- Claim C5 (counterexample): a raw student whose derived age is 9 (well
below 16) is removed from the cleaned output entirely, not kept with the age
clipped to the nearest bound 16 as the claim asserts. -/
theorem c5_counterexample :
    transform_students 2025 (fun _ => 2020) [⟨1, some 2020, some 3650⟩] = [] ∧
    derived_age (some 3650) = 9 ∧
    spec_clip_age (derived_age (some 3650)) = 16 := by
  refine ⟨by decide, by decide, by decide⟩

/-- Claim C5 (amended): for every row of the cleaned output, the age equals
the age derived from the raw row's birth date — no clipping is applied —
and rows whose derived age falls outside [16, 60] are filtered out of the
output rather than clipped to the nearest bound. -/
theorem c5_amended_age_not_clipped (cy : Int) (rnd : Nat → Int) (xs : List RawStudent) :
    ∀ s ∈ transform_students cy rnd xs,
      ∃ raw ∈ xs, s.student_id = raw.student_id ∧ s.age = derived_age raw.birth_days ∧
        16 ≤ derived_age raw.birth_days ∧ derived_age raw.birth_days ≤ 60 := by
  intro s hs
  unfold transform_students at hs
  have hfil := mem_dedup_students _ _ _ hs
  have hmem := List.mem_filter.mp hfil
  have hage : 16 ≤ s.age ∧ s.age ≤ 60 := by
    have hb := hmem.2
    simp only [Bool.and_eq_true, decide_eq_true_eq] at hb
    exact hb
  obtain ⟨j, raw, hraw, he⟩ := mem_clean_students_aux cy rnd _ 0 s hmem.1
  have hsa : s.age = derived_age raw.birth_days := by
    rw [he]; rfl
  refine ⟨raw, hraw, by rw [he]; rfl, hsa, hsa ▸ hage.1, hsa ▸ hage.2⟩

theorem c5_amended_age_not_clipped_witness :
    ∃ raw ∈ [(⟨1, some 1995, some 8000⟩ : RawStudent)],
      (⟨1, 2020, 21⟩ : CleanStudent).student_id = raw.student_id ∧
      (⟨1, 2020, 21⟩ : CleanStudent).age = derived_age raw.birth_days ∧
      16 ≤ derived_age raw.birth_days ∧ derived_age raw.birth_days ≤ 60 :=
  c5_amended_age_not_clipped 2025 (fun _ => 2020) [⟨1, some 1995, some 8000⟩]
    ⟨1, 2020, 21⟩ (by decide)

lemma getD_mod_mem (l : List Nat) (hne : l ≠ []) (k : Nat) : l.getD (k % l.length) 0 ∈ l := by
  have hlen : 0 < l.length := List.length_pos.mpr hne
  have hk : k % l.length < l.length := Nat.mod_lt _ hlen
  rw [List.getD_eq_getElem l 0 hk]
  exact List.getElem_mem hk

lemma repair_employee_depts_valid (deptIds : List Nat) (pick : Nat → Nat) (hne : deptIds ≠ []) :
    ∀ i emps, ∀ e ∈ repair_employee_depts deptIds pick i emps, e.department_id ∈ deptIds := by
  intro i emps
  induction emps generalizing i with
  | nil => intro e he; simp [repair_employee_depts] at he
  | cons a t ih =>
    intro e he
    rcases List.mem_cons.mp he with h1 | h1
    · by_cases hc : a.department_id ∈ deptIds
      · rw [if_pos hc] at h1
        exact h1 ▸ hc
      · rw [if_neg hc] at h1
        subst h1
        exact getD_mod_mem deptIds hne _
    · exact ih (i + 1) e h1

/-- Claim C1: every employee row the Loader writes carries a department
reference that resolves to a persisted department id — an invalid reference
is replaced by a valid id selected by the `random.choice` oracle — and the
substitution pass is reported (warning flag) exactly when some employee
reference was invalid. -/
theorem c1_loader_repair (deptIds : List Nat) (pick : Nat → Nat) (emps : List EmployeeRow)
    (hne : deptIds ≠ []) :
    (∀ e ∈ (load_employees deptIds pick emps).1, e.department_id ∈ deptIds) ∧
    ((load_employees deptIds pick emps).2 = true ↔
      ∃ e ∈ emps, e.department_id ∉ deptIds) := by
  unfold load_employees
  by_cases hinv :
      (emps.map (fun e => e.department_id)).filter (fun d => decide (d ∉ deptIds)) = []
  · rw [if_pos hinv]
    constructor
    · intro e he
      have hd : e.department_id ∈ emps.map (fun e => e.department_id) :=
        List.mem_map_of_mem _ he
      have := List.filter_eq_nil_iff.mp hinv _ hd
      simpa using this
    · simp only [Bool.false_eq_true, false_iff]
      rintro ⟨e, he, hdep⟩
      have hd : e.department_id ∈ emps.map (fun e => e.department_id) :=
        List.mem_map_of_mem _ he
      have := List.filter_eq_nil_iff.mp hinv _ hd
      simp at this
      exact hdep this
  · rw [if_neg hinv]
    constructor
    · intro e he
      exact repair_employee_depts_valid deptIds pick hne 0 emps e he
    · simp only [true_iff]
      obtain ⟨d, hd⟩ := List.exists_mem_of_ne_nil _ hinv
      have hmem := List.mem_filter.mp hd
      obtain ⟨e, he, hde⟩ := List.mem_map.mp hmem.1
      refine ⟨e, he, ?_⟩
      rw [hde]
      simpa using hmem.2

theorem c1_loader_repair_witness :
    ([1, 2, 3] : List Nat) ≠ [] ∧
    ((∀ e ∈ (load_employees [1, 2, 3] (fun _ => 0) [⟨5, 99⟩]).1,
        e.department_id ∈ [1, 2, 3]) ∧
      ((load_employees [1, 2, 3] (fun _ => 0) [⟨5, 99⟩]).2 = true ↔
        ∃ e ∈ [(⟨5, 99⟩ : EmployeeRow)], e.department_id ∉ [1, 2, 3])) :=
  ⟨by decide, c1_loader_repair [1, 2, 3] (fun _ => 0) [⟨5, 99⟩] (by decide)⟩

lemma academic_grade_mem (base : ℚ) (level : String) (age : Int) :
    0 ≤ academic_grade base level age ∧ academic_grade base level age ≤ 100 := by
  unfold academic_grade
  exact ⟨le_max_left _ _, max_le (by norm_num) (min_le_left _ _)⟩

lemma academic_attendance_mem (grade noise : ℚ) :
    60 ≤ academic_attendance grade noise ∧ academic_attendance grade noise ≤ 100 := by
  unfold academic_attendance
  exact ⟨le_max_left _ _, max_le (by norm_num) (min_le_left _ _)⟩

lemma hr_performance_mem (base tenure : ℚ) (b : Bool) :
    1 ≤ hr_performance base tenure b ∧ hr_performance base tenure b ≤ 5 := by
  unfold hr_performance
  exact ⟨le_max_left _ _, max_le (by norm_num) (min_le_left _ _)⟩

lemma round1_mem_cast (a b : Int) (x : ℚ) (h1 : (a : ℚ) ≤ x) (h2 : x ≤ (b : ℚ)) :
    (a : ℚ) ≤ round1 x ∧ round1 x ≤ (b : ℚ) := round1_mem_Icc a b x h1 h2

/-- Claim C4: every synthesized academic fact has grade and attendance
percentage in [0, 100], and every synthesized HR fact has performance rating
in [1, 5], regardless of the random draw oracles. -/
theorem c4_fact_ranges (students : List Nat) (draw : Nat → Nat) (o : AcademicOracle)
    (ageOf : Nat → Int) (emps : List EmpRec) (datesFor : Nat → List Nat)
    (perfBase : Nat → Nat → ℚ) (ot : Nat → Nat → ℚ) (leave : Nat → Nat → Nat) :
    (∀ f ∈ generate_academic_facts students draw o ageOf,
        0 ≤ f.grade ∧ f.grade ≤ 100 ∧
        0 ≤ f.attendance_percent ∧ f.attendance_percent ≤ 100) ∧
    (∀ f ∈ generate_hr_facts emps datesFor perfBase ot leave,
        1 ≤ f.performance_rating ∧ f.performance_rating ≤ 5) := by
  constructor
  · intro f hf
    unfold generate_academic_facts at hf
    obtain ⟨sid, _, rfl⟩ := List.mem_map.mp hf
    have hg := academic_grade_mem (o.gradeBase sid) (o.course_level sid) (ageOf sid)
    have ha := academic_attendance_mem
      (academic_grade (o.gradeBase sid) (o.course_level sid) (ageOf sid)) (o.noise sid)
    have hg1 := round1_mem_cast 0 100
      (academic_grade (o.gradeBase sid) (o.course_level sid) (ageOf sid))
      (by exact_mod_cast hg.1) (by exact_mod_cast hg.2)
    have ha1 := round1_mem_cast 0 100
      (academic_attendance (academic_grade (o.gradeBase sid) (o.course_level sid) (ageOf sid))
        (o.noise sid))
      (by push_cast; linarith [ha.1]) (by exact_mod_cast ha.2)
    refine ⟨?_, ?_, ?_, ?_⟩
    · simpa using hg1.1
    · simpa using hg1.2
    · simpa using ha1.1
    · simpa using ha1.2
  · intro f hf
    unfold generate_hr_facts at hf
    obtain ⟨e, _, hmem⟩ := List.mem_flatMap.mp hf
    obtain ⟨dk, _, rfl⟩ := List.mem_map.mp hmem
    have hp := hr_performance_mem (perfBase e.employee_id dk) e.tenure_years e.is_professor
    have hp1 := round1_mem_cast 1 5
      (hr_performance (perfBase e.employee_id dk) e.tenure_years e.is_professor)
      (by exact_mod_cast hp.1) (by exact_mod_cast hp.2)
    exact ⟨by simpa using hp1.1, by simpa using hp1.2⟩

theorem c4_fact_ranges_witness :
    (∀ f ∈ generate_academic_facts [7] (fun _ => 0)
        ⟨fun _ => 70, fun _ => 0, fun _ => "Introductory", fun _ => 3,
         fun _ => 1, fun _ => 1, fun _ => 1, fun _ => false⟩ (fun _ => 20),
        0 ≤ f.grade ∧ f.grade ≤ 100 ∧
        0 ≤ f.attendance_percent ∧ f.attendance_percent ≤ 100) ∧
    (∀ f ∈ generate_hr_facts [⟨1, 1, 50000, 3, false⟩] (fun _ => [20240301])
        (fun _ _ => 7 / 2) (fun _ _ => 2) (fun _ _ => 1),
        1 ≤ f.performance_rating ∧ f.performance_rating ≤ 5) :=
  c4_fact_ranges [7] (fun _ => 0)
    ⟨fun _ => 70, fun _ => 0, fun _ => "Introductory", fun _ => 3,
     fun _ => 1, fun _ => 1, fun _ => 1, fun _ => false⟩ (fun _ => 20)
    [⟨1, 1, 50000, 3, false⟩] (fun _ => [20240301])
    (fun _ _ => 7 / 2) (fun _ _ => 2) (fun _ _ => 1)

lemma unique_first_sub : ∀ (l seen : List Nat), ∀ x ∈ unique_first l seen, x ∈ l := by
  intro l
  induction l with
  | nil => intro seen x hx; simp [unique_first] at hx
  | cons a t ih =>
    intro seen x hx
    simp only [unique_first] at hx
    by_cases hc : a ∈ seen
    · rw [if_pos hc] at hx
      exact List.mem_cons_of_mem _ (ih _ _ hx)
    · rw [if_neg hc] at hx
      rcases List.mem_cons.mp hx with h1 | h1
      · exact h1 ▸ List.mem_cons_self _ _
      · exact List.mem_cons_of_mem _ (ih _ _ h1)

lemma unique_first_not_mem_seen :
    ∀ (l seen : List Nat), ∀ x ∈ unique_first l seen, x ∉ seen := by
  intro l
  induction l with
  | nil => intro seen x hx; simp [unique_first] at hx
  | cons a t ih =>
    intro seen x hx
    simp only [unique_first] at hx
    by_cases hc : a ∈ seen
    · rw [if_pos hc] at hx
      exact ih _ _ hx
    · rw [if_neg hc] at hx
      rcases List.mem_cons.mp hx with h1 | h1
      · exact h1 ▸ hc
      · intro hxseen
        exact ih _ _ h1 (List.mem_cons_of_mem _ hxseen)

lemma unique_first_nodup : ∀ (l seen : List Nat), (unique_first l seen).Nodup := by
  intro l
  induction l with
  | nil => intro seen; simp [unique_first]
  | cons a t ih =>
    intro seen
    simp only [unique_first]
    by_cases hc : a ∈ seen
    · rw [if_pos hc]
      exact ih _
    · rw [if_neg hc]
      refine List.nodup_cons.mpr ⟨?_, ih _⟩
      intro hmem
      exact unique_first_not_mem_seen t (a :: seen) a hmem (List.mem_cons_self _ _)

lemma unique_first_length_le : ∀ (l seen : List Nat), (unique_first l seen).length ≤ l.length := by
  intro l
  induction l with
  | nil => intro seen; simp [unique_first]
  | cons a t ih =>
    intro seen
    simp only [unique_first]
    by_cases hc : a ∈ seen
    · rw [if_pos hc]
      exact le_trans (ih _) (Nat.le_succ _)
    · rw [if_neg hc]
      simpa using ih _

lemma sample_ids_sub (students : List Nat) (draw : Nat → Nat) (hne : students ≠ []) :
    ∀ x ∈ sample_ids students draw, x ∈ students := by
  intro x hx
  unfold sample_ids at hx
  obtain ⟨i, _, rfl⟩ := List.mem_map.mp hx
  exact getD_mod_mem students hne _

/-- Claim C9: the academic-fact generator emits exactly one record per
distinct sampled student id — the emitted id list is the de-duplicated
5000-draw sample, without repetitions — so the row count equals the number
of distinct sampled ids and never exceeds min(5000, number of persisted
students). -/
theorem c9_academic_fact_count (students : List Nat) (draw : Nat → Nat) (o : AcademicOracle)
    (ageOf : Nat → Int) (hs : students ≠ []) :
    ((generate_academic_facts students draw o ageOf).map (fun f => f.student_id) =
        pandas_unique (sample_ids students draw)) ∧
    (pandas_unique (sample_ids students draw)).Nodup ∧
    (generate_academic_facts students draw o ageOf).length =
        (pandas_unique (sample_ids students draw)).length ∧
    (generate_academic_facts students draw o ageOf).length ≤ 5000 ∧
    (generate_academic_facts students draw o ageOf).length ≤ students.length := by
  have hmap : (generate_academic_facts students draw o ageOf).map (fun f => f.student_id) =
      pandas_unique (sample_ids students draw) := by
    unfold generate_academic_facts
    rw [List.map_map]
    exact List.map_id _
  have hnodup := unique_first_nodup (sample_ids students draw) []
  have hlen : (generate_academic_facts students draw o ageOf).length =
      (pandas_unique (sample_ids students draw)).length := by
    unfold generate_academic_facts
    rw [List.length_map]
  refine ⟨hmap, hnodup, hlen, ?_, ?_⟩
  · rw [hlen]
    calc (pandas_unique (sample_ids students draw)).length
        ≤ (sample_ids students draw).length := unique_first_length_le _ _
      _ = 5000 := by simp [sample_ids]
  · rw [hlen]
    have hsub : ∀ x ∈ pandas_unique (sample_ids students draw), x ∈ students := by
      intro x hx
      have hx2 : x ∈ unique_first (sample_ids students draw) [] := hx
      exact sample_ids_sub students draw hs x
        (unique_first_sub (sample_ids students draw) [] x hx2)
    calc (pandas_unique (sample_ids students draw)).length
        = (pandas_unique (sample_ids students draw)).toFinset.card :=
          (List.toFinset_card_of_nodup hnodup).symm
      _ ≤ students.toFinset.card := by
          apply Finset.card_le_card
          intro x hx
          rw [List.mem_toFinset]
          exact hsub x (List.mem_toFinset.mp hx)
      _ ≤ students.length := List.toFinset_card_le _

theorem c9_academic_fact_count_witness :
    ([7, 8] : List Nat) ≠ [] ∧
    (((generate_academic_facts [7, 8] (fun _ => 0)
        ⟨fun _ => 70, fun _ => 0, fun _ => "Advanced", fun _ => 3,
         fun _ => 1, fun _ => 1, fun _ => 1, fun _ => false⟩ (fun _ => 20)).map
          (fun f => f.student_id) =
        pandas_unique (sample_ids [7, 8] (fun _ => 0))) ∧
    (pandas_unique (sample_ids [7, 8] (fun _ => 0))).Nodup ∧
    (generate_academic_facts [7, 8] (fun _ => 0)
        ⟨fun _ => 70, fun _ => 0, fun _ => "Advanced", fun _ => 3,
         fun _ => 1, fun _ => 1, fun _ => 1, fun _ => false⟩ (fun _ => 20)).length =
        (pandas_unique (sample_ids [7, 8] (fun _ => 0))).length ∧
    (generate_academic_facts [7, 8] (fun _ => 0)
        ⟨fun _ => 70, fun _ => 0, fun _ => "Advanced", fun _ => 3,
         fun _ => 1, fun _ => 1, fun _ => 1, fun _ => false⟩ (fun _ => 20)).length ≤ 5000 ∧
    (generate_academic_facts [7, 8] (fun _ => 0)
        ⟨fun _ => 70, fun _ => 0, fun _ => "Advanced", fun _ => 3,
         fun _ => 1, fun _ => 1, fun _ => 1, fun _ => false⟩ (fun _ => 20)).length ≤
        ([7, 8] : List Nat).length) :=
  ⟨by decide,
   c9_academic_fact_count [7, 8] (fun _ => 0)
     ⟨fun _ => 70, fun _ => 0, fun _ => "Advanced", fun _ => 3,
      fun _ => 1, fun _ => 1, fun _ => 1, fun _ => false⟩ (fun _ => 20) (by decide)⟩

/-- Claim C8: the schema rebuild is idempotent on the destination schema
state — applying it twice from any starting state equals applying it once —
and after one application all ten tables exist and are empty. -/
theorem c8_schema_idempotent (s : Schema) :
    create_transformed_tables (create_transformed_tables s) = create_transformed_tables s ∧
    ∀ n ∈ all_table_names, ∃ t, create_transformed_tables s n = some t ∧ t.rows = [] := by
  constructor
  · funext n
    simp only [create_transformed_tables, create_table, drop_tables]
    by_cases h1 : n = "fact_finance"
    · simp [h1]
    by_cases h2 : n = "fact_hr_metrics"
    · simp [h1, h2]
    by_cases h3 : n = "fact_academics"
    · simp [h1, h2, h3]
    by_cases h4 : n = "dim_vendor"
    · simp [h1, h2, h3, h4]
    by_cases h5 : n = "dim_account"
    · simp [h1, h2, h3, h4, h5]
    by_cases h6 : n = "dim_employee"
    · simp [h1, h2, h3, h4, h5, h6]
    by_cases h7 : n = "dim_department"
    · simp [h1, h2, h3, h4, h5, h6, h7]
    by_cases h8 : n = "dim_course"
    · simp [h1, h2, h3, h4, h5, h6, h7, h8]
    by_cases h9 : n = "dim_student"
    · simp [h1, h2, h3, h4, h5, h6, h7, h8, h9]
    by_cases h10 : n = "dim_date"
    · simp [h1, h2, h3, h4, h5, h6, h7, h8, h9, h10]
    simp [h1, h2, h3, h4, h5, h6, h7, h8, h9, h10]
  · intro n hn
    simp only [all_table_names, List.mem_cons, List.not_mem_nil, or_false] at hn
    rcases hn with rfl | rfl | rfl | rfl | rfl | rfl | rfl | rfl | rfl | rfl
    · exact ⟨tab_dim_date, rfl, rfl⟩
    · exact ⟨tab_dim_student, rfl, rfl⟩
    · exact ⟨tab_dim_course, rfl, rfl⟩
    · exact ⟨tab_dim_department, rfl, rfl⟩
    · exact ⟨tab_dim_employee, rfl, rfl⟩
    · exact ⟨tab_dim_account, rfl, rfl⟩
    · exact ⟨tab_dim_vendor, rfl, rfl⟩
    · exact ⟨tab_fact_academics, rfl, rfl⟩
    · exact ⟨tab_fact_hr_metrics, rfl, rfl⟩
    · exact ⟨tab_fact_finance, rfl, rfl⟩

theorem c8_schema_idempotent_witness :
    (create_transformed_tables (create_transformed_tables (fun _ => none)) =
        create_transformed_tables (fun _ => none)) ∧
    ∀ n ∈ all_table_names, ∃ t,
      create_transformed_tables (fun _ => none) n = some t ∧ t.rows = [] :=
  c8_schema_idempotent (fun _ => none)

lemma getD_map_lt (f : String × List CellVal → String × List CellVal)
    (l : List (String × List CellVal)) (i : Nat) (h : i < l.length) :
    (l.map f).getD i ("", []) = f (l.getD i ("", [])) := by
  rw [List.getD_eq_getElem?_getD, List.getD_eq_getElem?_getD, List.getElem?_map,
      List.getElem?_eq_getElem h]
  simp

/-- Claim C10: `ensure_sql_types_before_load` changes only the columns whose
name is exactly `date` or ends in `_date` or `_at`, coercing each of their
cells to a timezone-naive calendar date with unparsable values becoming
null; every other column is returned unchanged (the embedding is pure, so
the argument dataframe itself is never mutated — the Python function
achieves the same by working on `df.copy()`). -/
theorem c10_date_columns_only (parse : String → Option Nat) (numdate : ℚ → Option Nat)
    (df : List (String × List CellVal)) :
    (ensure_sql_types_before_load parse numdate df).length = df.length ∧
    (∀ i, i < df.length →
      (is_date_col (df.getD i ("", [])).1 = false →
        (ensure_sql_types_before_load parse numdate df).getD i ("", []) =
          df.getD i ("", [])) ∧
      (is_date_col (df.getD i ("", [])).1 = true →
        (ensure_sql_types_before_load parse numdate df).getD i ("", []) =
          ((df.getD i ("", [])).1, (df.getD i ("", [])).2.map (to_pydate parse numdate)))) ∧
    (∀ s, parse s = none → to_pydate parse numdate (CellVal.str s) = CellVal.null) := by
  refine ⟨List.length_map _ _, ?_, ?_⟩
  · intro i hi
    have hmap := getD_map_lt
      (fun col => if is_date_col col.1 then (col.1, col.2.map (to_pydate parse numdate)) else col)
      df i hi
    constructor
    · intro hfalse
      rw [show ensure_sql_types_before_load parse numdate df =
          df.map (fun col =>
            if is_date_col col.1 then (col.1, col.2.map (to_pydate parse numdate)) else col)
        from rfl, hmap]
      simp [hfalse]
      intro hc
      rw [List.getD_eq_getElem?_getD] at hfalse
      simp [hfalse] at hc
    · intro htrue
      rw [show ensure_sql_types_before_load parse numdate df =
          df.map (fun col =>
            if is_date_col col.1 then (col.1, col.2.map (to_pydate parse numdate)) else col)
        from rfl, hmap]
      simp [htrue]
      intro hc
      rw [List.getD_eq_getElem?_getD] at htrue
      simp [htrue] at hc
  · intro s hps
    simp [to_pydate, hps]

theorem c10_date_columns_only_witness :
    ((ensure_sql_types_before_load (fun _ => none) (fun _ => none)
        [("date", [CellVal.str "x"]), ("name", [CellVal.str "y"])]).length =
      ([("date", [CellVal.str "x"]), ("name", [CellVal.str "y"])] :
        List (String × List CellVal)).length) ∧
    (∀ i, i < ([("date", [CellVal.str "x"]), ("name", [CellVal.str "y"])] :
        List (String × List CellVal)).length →
      (is_date_col (([("date", [CellVal.str "x"]), ("name", [CellVal.str "y"])] :
          List (String × List CellVal)).getD i ("", [])).1 = false →
        (ensure_sql_types_before_load (fun _ => none) (fun _ => none)
          [("date", [CellVal.str "x"]), ("name", [CellVal.str "y"])]).getD i ("", []) =
          ([("date", [CellVal.str "x"]), ("name", [CellVal.str "y"])] :
            List (String × List CellVal)).getD i ("", [])) ∧
      (is_date_col (([("date", [CellVal.str "x"]), ("name", [CellVal.str "y"])] :
          List (String × List CellVal)).getD i ("", [])).1 = true →
        (ensure_sql_types_before_load (fun _ => none) (fun _ => none)
          [("date", [CellVal.str "x"]), ("name", [CellVal.str "y"])]).getD i ("", []) =
          ((([("date", [CellVal.str "x"]), ("name", [CellVal.str "y"])] :
              List (String × List CellVal)).getD i ("", [])).1,
            (([("date", [CellVal.str "x"]), ("name", [CellVal.str "y"])] :
              List (String × List CellVal)).getD i ("", [])).2.map
              (to_pydate (fun _ => none) (fun _ => none))))) ∧
    (∀ s, (fun _ : String => (none : Option Nat)) s = none →
      to_pydate (fun _ => none) (fun _ => none) (CellVal.str s) = CellVal.null) :=
  c10_date_columns_only (fun _ => none) (fun _ => none)
    [("date", [CellVal.str "x"]), ("name", [CellVal.str "y"])]
